import Mathlib

/-!
Shallow embedding of the influencer-prospection pipeline
(`run_prospection.py`, `src/gpt_screener.py`, `src/history_manager.py`,
`src/hashtag_collector.py`, `src/instagram_prospector.py`,
`src/prospector_v2.py`) and proofs about its state-tracking and
decision logic.

Conventions of the embedding:
* Python `str` is Lean `String`; Python `int` is `Nat` where the source
  only ever holds non-negative counts (follower counts, quotas, lengths)
  and `Int` where it can be any integer (the CSV line count,
  LLM-reported confidence).
* Python `float` arithmetic on engagement rates is embedded over `ℚ`
  (the concrete values are small decimal fractions; no claim here
  depends on binary rounding of IEEE doubles).
* A Python `dict` used as a record is a structure; a `dict` used as a
  keyed store (`HistoryManager._processed_cache`) is an association
  list with insert-or-overwrite assignment, which is observably the
  semantics of `d[k] = v` (insertion order preserved, existing key
  overwritten in place).
* The OpenAI call of `GPTScreener.screen_profile` is an external
  collaborator: it is an oracle argument producing either a parsed
  JSON object (`LLMOutcome.ok`) or any exception raised inside the
  `try` block, API failure and unextractable JSON alike
  (`LLMOutcome.err` carrying `str(e)`).
-/

namespace Voy

/-- Embedding of Python `str.lower()` as character-wise lowercasing.
For the ASCII usernames and platform names the pipeline handles this
coincides with CPython semantics.  (Defined over the character list so
that proofs can evaluate it; `String.toLower` itself is irreducible in
the kernel.) -/
def lower (s : String) : String :=
  String.mk (s.data.map Char.toLower)

/-- `HistoryManager._get_profile_key` (history_manager.py line 40):
the identity key `f"{platform}:{username.lower()}"`.  The same
expression is inlined at history_manager.py lines 217, 223 and 272. -/
def profileKey (username platform : String) : String :=
  platform ++ ":" ++ lower username

/-- A collected-profile record as passed through the pipeline
(`CollectedProfile.to_dict()` of hashtag_collector.py); only the
fields the modelled operations read are kept. -/
structure ProfileData where
  username : String
  platform : String
  name : String
  followers : Nat
  engagement_rate : ℚ
deriving DecidableEq, Repr

/-- The `{}` fallback of `next((p for p in pending if ...), {})` in
`run_prospection.py` lines 159-162 and 184-187. -/
def emptyProfile : ProfileData :=
  { username := "", platform := "", name := "", followers := 0, engagement_rate := 0 }

/-- The JSON object parsed from the LLM response in
`GPTScreener.screen_profile` (gpt_screener.py line 117/123): every
schema field may be missing, in which case `.get` supplies a default. -/
structure RespData where
  idade_25_plus : Option Bool
  sobrepeso_obeso : Option Bool
  classe_ab : Option Bool
  brasileiro : Option Bool
  pessoa_real : Option Bool
  aprovado : Option Bool
  motivo : Option String
  confianca : Option Int
deriving DecidableEq, Repr

/-- Outcome of one LLM screening attempt: either a JSON object was
obtained (directly or by regex extraction, gpt_screener.py lines
106-125), or some exception escaped the attempt (API error,
unextractable JSON, ...) carrying `str(e)`. -/
inductive LLMOutcome where
  | ok (data : RespData)
  | err (msg : String)
deriving DecidableEq, Repr

/-- `ScreeningResult` dataclass of gpt_screener.py lines 33-49
(`raw_response`, an echo of the parsed dict, is omitted: no claim
concerns it). -/
structure ScreeningResult where
  username : String
  platform : String
  idade_25_plus : Bool
  sobrepeso_obeso : Bool
  classe_ab : Bool
  brasileiro : Bool
  pessoa_real : Bool
  aprovado : Bool
  motivo : String
  confianca : Int
deriving DecidableEq, Repr

/-- `GPTScreener.screen_profile` (gpt_screener.py lines 62-165): on a
parsed response the result fields are `result_data.get(field, default)`
(lines 128-140); on any exception the rejection result of lines
153-165 is returned, with `motivo = f"Erro na análise: {str(e)[:100]}"`. -/
def screen_profile (profile : ProfileData) (outcome : LLMOutcome) : ScreeningResult :=
  match outcome with
  | .ok d =>
      { username := profile.username
        platform := profile.platform
        idade_25_plus := d.idade_25_plus.getD false
        sobrepeso_obeso := d.sobrepeso_obeso.getD false
        classe_ab := d.classe_ab.getD false
        brasileiro := d.brasileiro.getD false
        pessoa_real := d.pessoa_real.getD false
        aprovado := d.aprovado.getD false
        motivo := d.motivo.getD ""
        confianca := d.confianca.getD 0 }
  | .err msg =>
      { username := profile.username
        platform := profile.platform
        idade_25_plus := false
        sobrepeso_obeso := false
        classe_ab := false
        brasileiro := false
        pessoa_real := false
        aprovado := false
        motivo := "Erro na análise: " ++ msg.take 100
        confianca := 0 }

/-- Loop body of `GPTScreener.screen_profiles_batch` (gpt_screener.py
lines 183-217): accumulates `(approved, rejected)` and stops before
screening the next profile once `len(approved) >= max_approved`. -/
def screen_profiles_batch_aux (llm : ProfileData → LLMOutcome) (maxApproved : Nat) :
    List ProfileData → List ScreeningResult → List ScreeningResult →
    List ScreeningResult × List ScreeningResult
  | [], approved, rejected => (approved, rejected)
  | p :: ps, approved, rejected =>
    if maxApproved ≤ approved.length then (approved, rejected)
    else
      let r := screen_profile p (llm p)
      if r.aprovado then
        screen_profiles_batch_aux llm maxApproved ps (approved ++ [r]) rejected
      else
        screen_profiles_batch_aux llm maxApproved ps approved (rejected ++ [r])

/-- `GPTScreener.screen_profiles_batch` / module-level `screen_profiles`
(gpt_screener.py lines 167-217 and 249-264). -/
def screen_profiles_batch (llm : ProfileData → LLMOutcome)
    (profiles : List ProfileData) (maxApproved : Nat) :
    List ScreeningResult × List ScreeningResult :=
  screen_profiles_batch_aux llm maxApproved profiles [] []

/-- `MIN_ENGAGEMENT_RATE = 2.5` (config.py line 20). -/
def MIN_ENGAGEMENT_RATE : ℚ := 5 / 2

/-- Modelled from the spec: `MIN_FOLLOWERS` is imported from `config`
by hashtag_collector.py and run_prospection.py but the shipped
config.py does not define it; the spec and the source docstrings
("Filtra por 10k+ seguidores", "10k+ seguidores e 2.5%+ engajamento")
fix it at 10000. -/
def MIN_FOLLOWERS : Nat := 10000

/-- The parametric qualification predicate of
`InstagramProspector.prospect_from_seed_list`
(instagram_prospector.py lines 272-277):
`p.followers_count >= min_followers and p.engagement_rate >= min_engagement`. -/
def qualifies (follower_count : Nat) (engagement_rate : ℚ)
    (min_followers : Nat) (min_engagement : ℚ) : Bool :=
  decide (min_followers ≤ follower_count) && decide (min_engagement ≤ engagement_rate)

/-- `CollectedProfile.meets_criteria` (hashtag_collector.py lines
126-131): `followers >= MIN_FOLLOWERS and engagement_rate >= MIN_ENGAGEMENT_RATE`. -/
def meets_criteria (p : ProfileData) : Bool :=
  decide (MIN_FOLLOWERS ≤ p.followers) && decide (MIN_ENGAGEMENT_RATE ≤ p.engagement_rate)

/-- Python `round(x, 2)`: round to two decimal places.  (Python rounds
ties to even; Mathlib `round` rounds ties up.  The two differ only on
exact multiples of 1/200, which none of the statements below touch.) -/
def round2 (x : ℚ) : ℚ :=
  ((round (x * 100) : ℤ) : ℚ) / 100

/-- Engagement-rate computation of the Instagram Business Discovery
path, `HashtagCollector._get_instagram_profile` (hashtag_collector.py
lines 320-345): a media item is a `(like_count, comments_count)` pair;
over the first 10 media, `engagement_rate = (avg / max(followers, 1)) * 100`,
else 0; stored as `round(engagement_rate, 2)`. -/
def instaEngagementRate (followers : Nat) (media : List (Nat × Nat)) : ℚ :=
  let rate : ℚ :=
    if media.isEmpty then 0
    else
      let sample := media.take 10
      let total : Nat := (sample.map (fun m => m.1 + m.2)).sum
      let avg : ℚ := (total : ℚ) / (sample.length : ℚ)
      (avg / ((max followers 1 : Nat) : ℚ)) * 100
  round2 rate

/-- Engagement-rate computation of the TikTok path,
`InfluencerProspectorV2.search_tiktok` (prospector_v2.py lines
194-203, stored rounded at line 210): the computed percentage is
clamped with `min(engagement, 100)` on both live branches. -/
def tiktokEngagement (followers hearts videoCount likes comments : Nat) : ℚ :=
  let engagement : ℚ :=
    if 0 < followers ∧ 0 < videoCount then
      min ((((hearts : ℚ) / (videoCount : ℚ)) / (followers : ℚ)) * 100) 100
    else if 0 < followers then
      min ((((likes : ℚ) + (comments : ℚ)) / (followers : ℚ)) * 100) 100
    else 0
  round2 engagement

/-- Engagement rate of the YouTube path,
`InfluencerProspectorV2.search_youtube` (prospector_v2.py line 276):
the constant `0.0`. -/
def youtubeEngagementRate : ℚ := 0

/-- One value of `HistoryManager._processed_cache` (history_manager.py
lines 116-124): the record stored for a processed identity key. -/
structure HEntry where
  username : String
  platform : String
  name : String
  processed_at : String
  approved : Bool
  screening_result : ScreeningResult
  profile_data : ProfileData
deriving DecidableEq, Repr

/-- `HistoryManager._processed_cache`: a Python dict from identity key
to entry, embedded as an association list in insertion order. -/
abbrev ProcessedCache := List (String × HEntry)

/-- The key set of the processed store (`self._processed_cache.keys()`). -/
def histKeys (cache : ProcessedCache) : List String :=
  cache.map (fun e => e.1)

/-- `HistoryManager.is_processed` (history_manager.py lines 80-83):
`key in self._processed_cache`. -/
def is_processed (cache : ProcessedCache) (username platform : String) : Bool :=
  decide (profileKey username platform ∈ histKeys cache)

/-- Python dict assignment `d[k] = v`: overwrite in place if the key
exists, else append.  (`_processed_cache` never holds duplicate keys,
so replacing the first occurrence is exact.) -/
def dictSet : ProcessedCache → String → HEntry → ProcessedCache
  | [], k, e => [(k, e)]
  | (k', e') :: rest, k, e =>
    if k' = k then (k, e) :: rest
    else (k', e') :: dictSet rest k e

/-- `HistoryManager.mark_as_processed` (history_manager.py lines
94-127): unconditional `self._processed_cache[key] = {...}` with
`processed_at = datetime.now().isoformat()` — the wall clock is the
explicit `now` argument here. -/
def mark_as_processed (cache : ProcessedCache) (username platform name : String)
    (approved : Bool) (screening_result : ScreeningResult)
    (profile_data : ProfileData) (now : String) : ProcessedCache :=
  dictSet cache (profileKey username platform)
    { username := username, platform := platform, name := name,
      processed_at := now, approved := approved,
      screening_result := screening_result, profile_data := profile_data }

/-- Rollup counter `total_processed` of `_save_history` /
`get_statistics` (history_manager.py lines 63, 165). -/
def total_processed (cache : ProcessedCache) : Nat :=
  cache.length

/-- Rollup counter `total_approved`: `sum(1 for p in ... if p.get("approved"))`
(history_manager.py lines 64, 166). -/
def total_approved (cache : ProcessedCache) : Nat :=
  (cache.filter (fun e => e.2.approved)).length

/-- Rollup counter `total_rejected = total - approved`
(history_manager.py lines 70, 167). -/
def total_rejected (cache : ProcessedCache) : Nat :=
  total_processed cache - total_approved cache

/-- `HistoryManager.filter_unprocessed` (history_manager.py lines
140-161): the loop appending each profile whose key is not processed,
in input order. -/
def filter_unprocessed (cache : ProcessedCache) : List ProfileData → List ProfileData
  | [] => []
  | p :: ps =>
    if is_processed cache p.username p.platform then filter_unprocessed cache ps
    else p :: filter_unprocessed cache ps

/-- Loop of `HistoryManager.save_pending_profiles` (history_manager.py
lines 215-227): appends a new profile to the pending list only when
its key is in neither `existing_keys` nor the processed store, and
extends `existing_keys` as it goes. -/
def save_pending_aux (cache : ProcessedCache) :
    List ProfileData → List ProfileData → List String → List ProfileData
  | [], existing, _ => existing
  | p :: ps, existing, ks =>
    let key := profileKey p.username p.platform
    if decide (key ∉ ks) && !(is_processed cache p.username p.platform) then
      save_pending_aux cache ps (existing ++ [p]) (ks ++ [key])
    else
      save_pending_aux cache ps existing ks

/-- `HistoryManager.save_pending_profiles` (history_manager.py lines
207-239): merge `profiles` into the existing pending store,
deduplicating by identity key against both the store and the history. -/
def save_pending_profiles (cache : ProcessedCache)
    (existing profiles : List ProfileData) : List ProfileData :=
  save_pending_aux cache profiles existing
    (existing.map (fun p => profileKey p.username p.platform))

/-- `HistoryManager.remove_from_pending` (history_manager.py lines
260-292): drop every pending profile whose identity key is in the
`to_remove` set built from `(username, platform)` pairs. -/
def remove_from_pending (pending : List ProfileData)
    (usernames_platforms : List (String × String)) : List ProfileData :=
  let toRemove := usernames_platforms.map (fun up => profileKey up.1 up.2)
  pending.filter (fun p => decide (profileKey p.username p.platform ∉ toRemove))

/-- One data row of `approved_influencers.csv`
(`HistoryManager.append_to_approved_csv`, history_manager.py lines
298-353).  Only the `data_aprovacao` column matters to the claims; the
row stores its day component (`datetime.now().strftime("%Y-%m-%d")`),
so "the stored timestamp starts with today's date" is day equality. -/
structure CsvRow where
  day : String
deriving DecidableEq, Repr

/-- `HistoryManager.append_to_approved_csv`: appends one row stamped
with the current day. -/
def append_to_approved_csv (csv : List CsvRow) (today : String) : List CsvRow :=
  csv ++ [{ day := today }]

/-- `HistoryManager.get_today_approved_count` (history_manager.py
lines 367-384): count rows whose `data_aprovacao` falls on `today`. -/
def get_today_approved_count (csv : List CsvRow) (today : String) : Nat :=
  (csv.filter (fun row => row.day == today)).length

/-- The approved-output CSV file as `HistoryManager.get_approved_count`
sees it: missing, unreadable (the `except` branch), or a readable list
of raw CSV records — header line included, since `csv.reader` yields it
like any other record. -/
inductive ApprovedFileState where
  | absent
  | unreadable
  | readable (records : List CsvRow)
deriving DecidableEq, Repr

/-- `HistoryManager.get_approved_count` (history_manager.py lines
355-365): 0 if the file does not exist, `sum(1 for _ in reader) - 1`
if it is readable, 0 if reading raises. -/
def get_approved_count : ApprovedFileState → Int
  | .absent => 0
  | .unreadable => 0
  | .readable records => (records.length : Int) - 1

/-- The pipeline's persistent state: the processed store
(`processed_profiles.json`), the pending store
(`pending_profiles.json`), the data rows of
`approved_influencers.csv`, plus a counter of LLM requests issued
(each `screen_profile` call makes exactly one). -/
structure PipeState where
  cache : ProcessedCache
  pending : List ProfileData
  csv : List CsvRow
  llmCalls : Nat
deriving DecidableEq, Repr

/-- The statistics dict returned by `ProspectionPipeline.run_screening`
(run_prospection.py lines 123-128, 137-142, 205-211). -/
structure ScreeningStats where
  status : String
  today_approved : Nat
  new_approved : Nat
  analyzed : Nat
deriving DecidableEq, Repr

/-- `HistoryManager.get_pending_profiles` (history_manager.py lines
241-258): the pending store re-filtered against history, truncated to
`limit`. -/
def get_pending_profiles (cache : ProcessedCache) (pending : List ProfileData)
    (limit : Nat) : List ProfileData :=
  (filter_unprocessed cache pending).take limit

/-- `next((p for p in pending if p.get("username") == result.username), {})`
(run_prospection.py lines 159-162, 184-187). -/
def lookupProfile (pending : List ProfileData) (r : ScreeningResult) : ProfileData :=
  (pending.find? (fun p => p.username == r.username)).getD emptyProfile

/-- `profile_data.get("name", result.username)` for the looked-up
profile (run_prospection.py lines 168, 192). -/
def lookupName (pending : List ProfileData) (r : ScreeningResult) : String :=
  match pending.find? (fun p => p.username == r.username) with
  | some p => p.name
  | none => r.username

/-- Approved-results loop of `ProspectionPipeline.run_screening`
(run_prospection.py lines 157-181): for each approved verdict, mark
it processed (`approved=True`) and append one row to the approved CSV. -/
def process_approved (pending : List ProfileData) (today now : String) :
    List ScreeningResult → ProcessedCache × List CsvRow → ProcessedCache × List CsvRow
  | [], s => s
  | r :: rs, (cache, csv) =>
    process_approved pending today now rs
      (mark_as_processed cache r.username r.platform (lookupName pending r) true r
        (lookupProfile pending r) now,
       append_to_approved_csv csv today)

/-- Rejected-results loop of `ProspectionPipeline.run_screening`
(run_prospection.py lines 183-198): mark each rejected verdict
processed (`approved=False`); nothing is appended to the CSV. -/
def process_rejected (pending : List ProfileData) (now : String) :
    List ScreeningResult → ProcessedCache → ProcessedCache
  | [], cache => cache
  | r :: rs, cache =>
    process_rejected pending now rs
      (mark_as_processed cache r.username r.platform (lookupName pending r) false r
        (lookupProfile pending r) now)

/-- `ProspectionPipeline.run_screening` (run_prospection.py lines
103-211).  `remaining_target = max(0, target - today_approved)` is the
truncated `Nat` subtraction; the three exits mirror the source's
`meta_atingida`, `sem_pendentes` and `sucesso` returns.  `today` is the
current day used both to count the CSV and to stamp new rows; `now` is
the wall-clock string recorded by `mark_as_processed`. -/
def run_screening (llm : ProfileData → LLMOutcome) (target_approved : Nat)
    (today now : String) (st : PipeState) : ScreeningStats × PipeState :=
  let today_approved := get_today_approved_count st.csv today
  let remaining_target := target_approved - today_approved
  if remaining_target = 0 then
    ({ status := "meta_atingida", today_approved := today_approved,
       new_approved := 0, analyzed := 0 }, st)
  else
    let pending := get_pending_profiles st.cache st.pending 100
    if pending.isEmpty then
      ({ status := "sem_pendentes", today_approved := today_approved,
         new_approved := 0, analyzed := 0 }, st)
    else
      let res := screen_profiles_batch llm pending remaining_target
      let approved_results := res.1
      let rejected_results := res.2
      let s1 := process_approved pending today now approved_results (st.cache, st.csv)
      let cache2 := process_rejected pending now rejected_results s1.1
      let processed_profiles :=
        (approved_results ++ rejected_results).map (fun r => (r.username, r.platform))
      let pending2 := remove_from_pending st.pending processed_profiles
      ({ status := "sucesso",
         today_approved := today_approved + approved_results.length,
         new_approved := approved_results.length,
         analyzed := approved_results.length + rejected_results.length },
       { cache := cache2, pending := pending2, csv := s1.2,
         llmCalls := st.llmCalls + approved_results.length + rejected_results.length })

/-- A sequence of `run_screening` invocations on one calendar day,
all with the same daily target; each invocation brings its own LLM
oracle and wall-clock stamp. -/
def run_screening_seq (target_approved : Nat) (today : String) :
    List ((ProfileData → LLMOutcome) × String) → PipeState → PipeState
  | [], st => st
  | (llm, now) :: rest, st =>
    run_screening_seq target_approved today rest
      (run_screening llm target_approved today now st).2

/-- The identity keys of a list of pending profiles. -/
def pendingKeys (ps : List ProfileData) : List String :=
  ps.map (fun p => profileKey p.username p.platform)

/-- Rounding to two decimals preserves non-negativity. -/
lemma round2_nonneg {x : ℚ} (h : 0 ≤ x) : 0 ≤ round2 x := by
  unfold round2
  have h1 : (0 : ℤ) ≤ round (x * 100) := by
    rw [round_eq]
    have h0 : (0 : ℤ) = ⌊(1 : ℚ) / 2⌋ := by norm_num
    rw [h0]
    exact Int.floor_le_floor (by nlinarith)
  positivity

/-- Rounding to two decimals preserves the upper bound 100. -/
lemma round2_le_100 {x : ℚ} (h : x ≤ 100) : round2 x ≤ 100 := by
  unfold round2
  have h1 : round (x * 100) ≤ 10000 := by
    rw [round_eq]
    have h0 : (10000 : ℤ) = ⌊(10000 : ℚ) + 1 / 2⌋ := by norm_num
    rw [h0]
    exact Int.floor_le_floor (by nlinarith)
  have h2 : ((round (x * 100) : ℤ) : ℚ) ≤ 10000 := by exact_mod_cast h1
  linarith

/-- Claim C5: the qualification predicate is the conjunction of the two
inclusive threshold comparisons, and under the configured thresholds
(10000 followers, 2.5% engagement) the boundary record qualifies while
9999 followers with 5.0% engagement does not. -/
theorem qualifies_inclusive_thresholds :
    (∀ (follower_count : Nat) (engagement_rate : ℚ)
        (min_followers : Nat) (min_engagement : ℚ),
        qualifies follower_count engagement_rate min_followers min_engagement = true ↔
          min_followers ≤ follower_count ∧ min_engagement ≤ engagement_rate) ∧
    meets_criteria { username := "a", platform := "instagram", name := "a",
                     followers := 10000, engagement_rate := 5 / 2 } = true ∧
    meets_criteria { username := "b", platform := "instagram", name := "b",
                     followers := 9999, engagement_rate := 5 } = false := by
  refine ⟨fun f e mf me => by simp [qualifies], ?_, ?_⟩
  · simp [meets_criteria, MIN_FOLLOWERS, MIN_ENGAGEMENT_RATE]
  · simp [meets_criteria, MIN_FOLLOWERS, MIN_ENGAGEMENT_RATE]

/-- Claim C8: `filter_unprocessed` is exactly the order-preserving
set-difference against the processed history: it equals `List.filter`
on the unprocessed predicate, a profile is in the output iff it is in
the input and its identity key is not in the history, and the output
is a sublist (same relative order) of the input. -/
theorem filter_unprocessed_spec (cache : ProcessedCache) (profiles : List ProfileData) :
    filter_unprocessed cache profiles
        = profiles.filter (fun p => !(is_processed cache p.username p.platform)) ∧
    (∀ p, p ∈ filter_unprocessed cache profiles ↔
        p ∈ profiles ∧ profileKey p.username p.platform ∉ histKeys cache) ∧
    (filter_unprocessed cache profiles).Sublist profiles := by
  have hf : filter_unprocessed cache profiles
      = profiles.filter (fun p => !(is_processed cache p.username p.platform)) := by
    induction profiles with
    | nil => rfl
    | cons p ps ih =>
      by_cases h : is_processed cache p.username p.platform
      · simp [filter_unprocessed, h, List.filter_cons, ih]
      · simp [filter_unprocessed, h, List.filter_cons, ih]
  refine ⟨hf, ?_, ?_⟩
  · intro p
    rw [hf]
    simp [List.mem_filter, is_processed]
  · rw [hf]
    exact List.filter_sublist profiles

/-- Claim C9: whenever screening a profile raises (LLM call failure or
unparseable/unextractable response), `screen_profile` returns a
rejection verdict — not approved, zero confidence, all sub-criteria
false — whose reason is the diagnostic `"Erro na análise: "` prefix
followed by the truncated exception text; no exception propagates. -/
theorem screen_profile_error_is_rejection (profile : ProfileData) (msg : String) :
    (screen_profile profile (.err msg)).aprovado = false ∧
    (screen_profile profile (.err msg)).confianca = 0 ∧
    (screen_profile profile (.err msg)).motivo = "Erro na análise: " ++ msg.take 100 ∧
    (screen_profile profile (.err msg)).idade_25_plus = false ∧
    (screen_profile profile (.err msg)).sobrepeso_obeso = false ∧
    (screen_profile profile (.err msg)).classe_ab = false ∧
    (screen_profile profile (.err msg)).brasileiro = false ∧
    (screen_profile profile (.err msg)).pessoa_real = false :=
  ⟨rfl, rfl, rfl, rfl, rfl, rfl, rfl, rfl⟩

/-- An LLM response whose sub-criterion `idade_25_plus` is false while
its `aprovado` field is true — schema-wise well-formed, logically
inconsistent with the AND rule. -/
def andViolatingResp : RespData :=
  { idade_25_plus := some false, sobrepeso_obeso := some true, classe_ab := some true,
    brasileiro := some true, pessoa_real := some true, aprovado := some true,
    motivo := some "perfil adequado", confianca := some 100 }

/-- A concrete collected profile used in counterexamples. -/
def sampleProfile : ProfileData :=
  { username := "maria", platform := "instagram", name := "Maria",
    followers := 20000, engagement_rate := 3 }

/-- Counterexample to claim C1: `screen_profile` copies the `aprovado`
field of the LLM response verbatim, so a verdict with a false
sub-criterion can still carry `aprovado = true` — approval is not
recomputed as the AND of the sub-criteria. -/
theorem screen_profile_and_violated :
    (screen_profile sampleProfile (.ok andViolatingResp)).idade_25_plus = false ∧
    (screen_profile sampleProfile (.ok andViolatingResp)).aprovado = true ∧
    (screen_profile sampleProfile (.ok andViolatingResp)).confianca = 100 :=
  ⟨rfl, rfl, rfl⟩

/-- Claim C1 (amended): the verdict's `aprovado` flag is exactly the
`aprovado` field reported by the LLM response (defaulting to false when
the field is missing), independent of the five sub-criteria booleans;
only on the exception path is `aprovado` forced to false (there all
sub-criteria are false as well, so the AND rule holds vacuously). -/
theorem screen_profile_aprovado_copied (profile : ProfileData) (d : RespData) (msg : String) :
    (screen_profile profile (.ok d)).aprovado = d.aprovado.getD false ∧
    (screen_profile profile (.err msg)).aprovado = false :=
  ⟨rfl, rfl⟩

/-- Counterexample to claim C10: a readable approved-output file
containing exactly one CSV record (its header line) makes
`get_approved_count` return 0, although the file exists and reading it
raised no exception — "returns 0 only when the file does not exist or
reading raises" is false. -/
theorem get_approved_count_zero_readable :
    get_approved_count (.readable [{ day := "data_aprovacao" }]) = 0 ∧
    ApprovedFileState.readable [{ day := "data_aprovacao" }] ≠ .absent ∧
    ApprovedFileState.readable [{ day := "data_aprovacao" }] ≠ .unreadable := by
  refine ⟨rfl, by simp, by simp⟩

/-- Claim C10 (amended): when the file is readable `get_approved_count`
returns the number of CSV records minus one (hence -1 for an existing
zero-record file); it returns 0 when the file does not exist, when
reading raises, or when the file holds exactly one record (a
header-only file). -/
theorem get_approved_count_spec (records : List CsvRow) (f : ApprovedFileState) :
    get_approved_count (.readable records) = (records.length : Int) - 1 ∧
    get_approved_count .absent = 0 ∧
    get_approved_count .unreadable = 0 ∧
    (get_approved_count f = 0 ↔
        f = .absent ∨ f = .unreadable ∨ ∃ rs, f = .readable rs ∧ rs.length = 1) := by
  refine ⟨rfl, rfl, rfl, ?_⟩
  cases f with
  | absent => simp [get_approved_count]
  | unreadable => simp [get_approved_count]
  | readable rs =>
    simp only [get_approved_count, reduceCtorEq, ApprovedFileState.readable.injEq,
      false_or]
    constructor
    · intro h
      exact ⟨rs, rfl, by omega⟩
    · rintro ⟨rs', rfl, h⟩
      omega

/-- Counterexample to claim C7: the Instagram Business Discovery path
(`HashtagCollector._get_instagram_profile`) applies no clamp — a
profile with 100 followers whose single recent post has 500 likes gets
engagement rate 500, far above 100. -/
theorem insta_engagement_exceeds_100 :
    100 < instaEngagementRate 100 [(500, 0)] := by
  have h : instaEngagementRate 100 [(500, 0)] = 500 := by
    simp [instaEngagementRate, round2]
    norm_num [round_eq]
  rw [h]
  norm_num

/-- Claim C7 (amended): computed engagement rates are non-negative on
every collection path, and the TikTok path (which clamps with
`min(·, 100)`) and the constant-zero YouTube path stay within
`[0, 100]`; the Instagram Business Discovery path applies no upper
clamp and can exceed 100. -/
theorem engagement_rate_bounds :
    (∀ followers hearts videoCount likes comments : Nat,
        0 ≤ tiktokEngagement followers hearts videoCount likes comments ∧
        tiktokEngagement followers hearts videoCount likes comments ≤ 100) ∧
    (∀ (followers : Nat) (media : List (Nat × Nat)),
        0 ≤ instaEngagementRate followers media) ∧
    0 ≤ youtubeEngagementRate ∧ youtubeEngagementRate ≤ 100 := by
  refine ⟨?_, ?_, by norm_num [youtubeEngagementRate], by norm_num [youtubeEngagementRate]⟩
  · intro f h v l c
    unfold tiktokEngagement
    split_ifs with h1 h2
    · constructor
      · exact round2_nonneg (le_min (by positivity) (by norm_num))
      · exact round2_le_100 (min_le_right _ _)
    · constructor
      · exact round2_nonneg (le_min (by positivity) (by norm_num))
      · exact round2_le_100 (min_le_right _ _)
    · constructor
      · exact round2_nonneg le_rfl
      · exact round2_le_100 (by norm_num)
  · intro f media
    unfold instaEngagementRate
    split_ifs with h1
    · exact round2_nonneg le_rfl
    · exact round2_nonneg (by positivity)

/-- Key membership after a dict assignment: the assigned key is added,
all other keys are untouched. -/
lemma histKeys_dictSet (c : ProcessedCache) (k : String) (e : HEntry) (k1 : String) :
    k1 ∈ histKeys (dictSet c k e) ↔ k1 ∈ histKeys c ∨ k1 = k := by
  induction c with
  | nil => simp [dictSet, histKeys]
  | cons pr rest ih =>
    obtain ⟨k0, e0⟩ := pr
    by_cases h : k0 = k
    · subst h
      have hd : dictSet ((k0, e0) :: rest) k0 e = (k0, e) :: rest := by
        simp [dictSet]
      rw [hd]
      simp only [histKeys, List.map_cons, List.mem_cons]
      tauto
    · have hd : dictSet ((k0, e0) :: rest) k e = (k0, e0) :: dictSet rest k e := by
        simp [dictSet, h]
      rw [hd]
      simp only [histKeys, List.map_cons, List.mem_cons] at ih ⊢
      tauto

/-- Assigning to a key already present does not change the store size. -/
lemma length_dictSet_mem (c : ProcessedCache) (k : String) (e : HEntry)
    (h : k ∈ histKeys c) : (dictSet c k e).length = c.length := by
  induction c with
  | nil => simp [histKeys] at h
  | cons pr rest ih =>
    obtain ⟨k0, e0⟩ := pr
    by_cases h0 : k0 = k
    · simp [dictSet, h0]
    · simp only [histKeys, List.map_cons, List.mem_cons] at h
      rcases h with h | h

      · exact absurd h.symm h0
      · simp only [dictSet, if_neg h0, List.length_cons]
        rw [ih h]

/-- The assigned key is always present afterwards. -/
lemma mem_histKeys_dictSet_self (c : ProcessedCache) (k : String) (e : HEntry) :
    k ∈ histKeys (dictSet c k e) := by
  rw [histKeys_dictSet]
  exact Or.inr rfl

/-- Dict assignment is idempotent for a fixed key and value. -/
lemma dictSet_idem (c : ProcessedCache) (k : String) (e : HEntry) :
    dictSet (dictSet c k e) k e = dictSet c k e := by
  induction c with
  | nil => simp [dictSet]
  | cons pr rest ih =>
    obtain ⟨k0, e0⟩ := pr
    by_cases h : k0 = k
    · simp [dictSet, h]
    · simp [dictSet, h, ih]

/-- An all-criteria-true approved verdict used in concrete inputs. -/
def approvedVerdict : ScreeningResult :=
  { username := "ana", platform := "instagram", idade_25_plus := true,
    sobrepeso_obeso := true, classe_ab := true, brasileiro := true,
    pessoa_real := true, aprovado := true, motivo := "ok", confianca := 90 }

/-- A rejected verdict used in concrete inputs. -/
def rejectedVerdict : ScreeningResult :=
  { username := "ana", platform := "instagram", idade_25_plus := false,
    sobrepeso_obeso := false, classe_ab := false, brasileiro := false,
    pessoa_real := false, aprovado := false, motivo := "fora do perfil", confianca := 80 }

/-- The ledger after one `mark_as_processed("ana", "instagram", approved=True)`. -/
def cacheOnce : ProcessedCache :=
  mark_as_processed [] "ana" "instagram" "Ana" true approvedVerdict emptyProfile "t1"

/-- The same ledger after a second `mark_as_processed` for the same
identity with `approved=False`. -/
def cacheTwice : ProcessedCache :=
  mark_as_processed cacheOnce "ana" "instagram" "Ana" false rejectedVerdict emptyProfile "t2"

/-- Counterexample to claim C4: a second `mark_as_processed` call for
the same identity overwrites the stored entry and changes the rollup
counters — here the second call flips `approved` and `total_approved`
drops from 1 to 0, so the ledger is not in the same observable state
as after one call. -/
theorem mark_as_processed_second_call_changes_state :
    total_approved cacheOnce = 1 ∧ total_approved cacheTwice = 0 ∧
    cacheTwice.map (fun pr => pr.2.approved) ≠ cacheOnce.map (fun pr => pr.2.approved) := by
  refine ⟨rfl, rfl, by decide⟩

/-- Claim C4 (amended): `mark_as_processed` is an unconditional
insert-or-overwrite keyed by identity.  A repeated call for the same
identity key never creates a second entry (`total_processed` is
unchanged), and a repeat with identical arguments — timestamp included
— leaves the ledger exactly as after one call; but the entry is
overwritten, so a repeat with different arguments changes the stored
entry and can change the approved/rejected counters (the
counterexample).  `mark_as_processed` itself writes no ApprovedOutput
row, so no duplicate row can arise from it. -/
theorem mark_as_processed_overwrite_spec (c : ProcessedCache)
    (u p n : String) (a : Bool) (sr : ScreeningResult) (pd : ProfileData) (now : String)
    (u2 n2 : String) (a2 : Bool) (sr2 : ScreeningResult) (pd2 : ProfileData) (now2 : String)
    (hkey : profileKey u2 p = profileKey u p) :
    total_processed
        (mark_as_processed (mark_as_processed c u p n a sr pd now) u2 p n2 a2 sr2 pd2 now2)
      = total_processed (mark_as_processed c u p n a sr pd now) ∧
    mark_as_processed (mark_as_processed c u p n a sr pd now) u p n a sr pd now
      = mark_as_processed c u p n a sr pd now := by
  constructor
  · unfold mark_as_processed total_processed
    rw [hkey]
    exact length_dictSet_mem _ _ _ (mem_histKeys_dictSet_self c (profileKey u p) _)
  · exact dictSet_idem c (profileKey u p) _

/-- Witness for the amended claim C4 at a concrete ledger: the second
call reuses the same identity key (case-insensitively) and the
repeated identical call leaves the ledger unchanged. -/
theorem mark_as_processed_overwrite_spec_witness :
    profileKey "ANA" "instagram" = profileKey "ana" "instagram" ∧
    total_processed
        (mark_as_processed cacheOnce "ANA" "instagram" "Ana" false rejectedVerdict emptyProfile "t2")
      = total_processed cacheOnce ∧
    mark_as_processed cacheOnce "ana" "instagram" "Ana" true approvedVerdict emptyProfile "t1"
      = cacheOnce := by
  have hk : profileKey "ANA" "instagram" = profileKey "ana" "instagram" := by decide
  have h := mark_as_processed_overwrite_spec [] "ana" "instagram" "Ana" true approvedVerdict
    emptyProfile "t1" "ANA" "Ana" false rejectedVerdict emptyProfile "t2" hk
  exact ⟨hk, h.1, h.2⟩

/-- Claim C6: if the day's approved count already meets or exceeds the
daily target when `run_screening` is invoked, it short-circuits with
status `meta_atingida` ("quota already met"), reports
`new_approved = 0` and `analyzed = 0`, leaves the whole state —
including the LLM-call counter — untouched, and so performs zero LLM
calls. -/
theorem run_screening_quota_met (llm : ProfileData → LLMOutcome) (target_approved : Nat)
    (today now : String) (st : PipeState)
    (h : target_approved ≤ get_today_approved_count st.csv today) :
    (run_screening llm target_approved today now st).1.status = "meta_atingida" ∧
    (run_screening llm target_approved today now st).1.new_approved = 0 ∧
    (run_screening llm target_approved today now st).1.analyzed = 0 ∧
    (run_screening llm target_approved today now st).2 = st ∧
    (run_screening llm target_approved today now st).2.llmCalls = st.llmCalls := by
  have hr : target_approved - get_today_approved_count st.csv today = 0 :=
    Nat.sub_eq_zero_of_le h
  simp [run_screening, hr]

/-- A state whose approved CSV already has one row dated 2026-10-12. -/
def quotaState : PipeState :=
  { cache := [], pending := [sampleProfile], csv := [{ day := "2026-10-12" }], llmCalls := 0 }

/-- An LLM response approving on all criteria. -/
def allTrueResp : RespData :=
  { idade_25_plus := some true, sobrepeso_obeso := some true, classe_ab := some true,
    brasileiro := some true, pessoa_real := some true, aprovado := some true,
    motivo := some "dentro do perfil", confianca := some 95 }

/-- An oracle that approves every profile. -/
def llmAllYes : ProfileData → LLMOutcome := fun _ => .ok allTrueResp

/-- Witness for claim C6 at a concrete state: target 1, one approval
already recorded today. -/
theorem run_screening_quota_met_witness :
    1 ≤ get_today_approved_count quotaState.csv "2026-10-12" ∧
    (run_screening llmAllYes 1 "2026-10-12" "n2" quotaState).1.status = "meta_atingida" ∧
    (run_screening llmAllYes 1 "2026-10-12" "n2" quotaState).1.new_approved = 0 ∧
    (run_screening llmAllYes 1 "2026-10-12" "n2" quotaState).1.analyzed = 0 ∧
    (run_screening llmAllYes 1 "2026-10-12" "n2" quotaState).2 = quotaState := by
  have h1 : 1 ≤ get_today_approved_count quotaState.csv "2026-10-12" := by decide
  have h := run_screening_quota_met llmAllYes 1 "2026-10-12" "n2" quotaState h1
  exact ⟨h1, h.1, h.2.1, h.2.2.1, h.2.2.2.1⟩

/-- Empty-input equation of the batch loop. -/
lemma screen_batch_aux_nil (llm : ProfileData → LLMOutcome) (maxA : Nat)
    (app rej : List ScreeningResult) :
    screen_profiles_batch_aux llm maxA [] app rej = (app, rej) := rfl

/-- Step equation of the batch loop. -/
lemma screen_batch_aux_cons (llm : ProfileData → LLMOutcome) (maxA : Nat)
    (p : ProfileData) (ps : List ProfileData) (app rej : List ScreeningResult) :
    screen_profiles_batch_aux llm maxA (p :: ps) app rej =
      if maxA ≤ app.length then (app, rej)
      else if (screen_profile p (llm p)).aprovado then
        screen_profiles_batch_aux llm maxA ps (app ++ [screen_profile p (llm p)]) rej
      else
        screen_profiles_batch_aux llm maxA ps app (rej ++ [screen_profile p (llm p)]) := rfl

/-- The batch loop never accumulates more approvals than its quota. -/
lemma screen_batch_aux_approved_le (llm : ProfileData → LLMOutcome) (maxA : Nat) :
    ∀ (ps : List ProfileData) (app rej : List ScreeningResult),
      app.length ≤ maxA →
      (screen_profiles_batch_aux llm maxA ps app rej).1.length ≤ maxA
  | [], app, rej, h => h
  | p :: ps, app, rej, h => by
    rw [screen_batch_aux_cons]
    split_ifs with h1 h2
    · exact h
    · refine screen_batch_aux_approved_le llm maxA ps _ _ ?_
      simp only [List.length_append, List.length_cons, List.length_nil]
      omega
    · exact screen_batch_aux_approved_le llm maxA ps app _ h

/-- The approved half of `screen_profiles_batch` is bounded by the quota. -/
lemma screen_batch_approved_le (llm : ProfileData → LLMOutcome)
    (profiles : List ProfileData) (maxA : Nat) :
    (screen_profiles_batch llm profiles maxA).1.length ≤ maxA :=
  screen_batch_aux_approved_le llm maxA profiles [] [] (by simp)

/-- Each approved verdict adds exactly one today-dated row to the CSV. -/
lemma process_approved_csv_count (pending : List ProfileData) (today now : String) :
    ∀ (rs : List ScreeningResult) (cache : ProcessedCache) (csv : List CsvRow),
      get_today_approved_count (process_approved pending today now rs (cache, csv)).2 today
        = get_today_approved_count csv today + rs.length
  | [], cache, csv => by simp [process_approved]
  | r :: rs, cache, csv => by
    have hstep :
        process_approved pending today now (r :: rs) (cache, csv)
          = process_approved pending today now rs
              (mark_as_processed cache r.username r.platform (lookupName pending r) true r
                (lookupProfile pending r) now,
               append_to_approved_csv csv today) := rfl
    rw [hstep, process_approved_csv_count pending today now rs _ _]
    simp [append_to_approved_csv, get_today_approved_count, List.filter_append]
    omega

/-- One `run_screening` invocation never pushes the day's approved-row
count past the target: it reads the count afresh, screens at most
`target - count` new approvals, and appends exactly one today-dated
row per approval. -/
lemma run_screening_today_count_le (llm : ProfileData → LLMOutcome) (target : Nat)
    (today now : String) (st : PipeState)
    (h : get_today_approved_count st.csv today ≤ target) :
    get_today_approved_count (run_screening llm target today now st).2.csv today ≤ target := by
  simp only [run_screening]
  split_ifs with h0 hp
  · exact h
  · exact h
  · simp only
    rw [process_approved_csv_count]
    have hb := screen_batch_approved_le llm (get_pending_profiles st.cache st.pending 100)
      (target - get_today_approved_count st.csv today)
    omega

/-- Claim C2: across any sequence of `run_screening` invocations of one
calendar day, all with daily target `target`, the number of approved
CSV rows dated that day never exceeds the target (starting from any
state within quota — in particular from the day's initial state with
zero rows dated today). -/
theorem run_screening_seq_daily_quota (target : Nat) (today : String)
    (runs : List ((ProfileData → LLMOutcome) × String)) (st : PipeState)
    (h : get_today_approved_count st.csv today ≤ target) :
    get_today_approved_count (run_screening_seq target today runs st).csv today ≤ target := by
  induction runs generalizing st with
  | nil => exact h
  | cons r rest ih =>
    obtain ⟨llm, now⟩ := r
    exact ih _ (run_screening_today_count_le llm target today now st h)

/-- A second pending profile for concrete runs. -/
def profileBia : ProfileData :=
  { username := "bia", platform := "instagram", name := "Bia",
    followers := 15000, engagement_rate := 4 }

/-- A fresh start-of-day state with two pending profiles and an empty CSV. -/
def dayStartState : PipeState :=
  { cache := [], pending := [sampleProfile, profileBia], csv := [], llmCalls := 0 }

/-- Witness for claim C2: two invocations with target 1 and an
all-approving oracle still leave at most one approved row dated today. -/
theorem run_screening_seq_daily_quota_witness :
    get_today_approved_count dayStartState.csv "2026-10-12" ≤ 1 ∧
    get_today_approved_count
        (run_screening_seq 1 "2026-10-12" [(llmAllYes, "n1"), (llmAllYes, "n2")]
          dayStartState).csv "2026-10-12" ≤ 1 :=
  ⟨by decide,
   run_screening_seq_daily_quota 1 "2026-10-12" [(llmAllYes, "n1"), (llmAllYes, "n2")]
     dayStartState (by decide)⟩

/-- Key membership after `mark_as_processed`: only the marked identity
key is added. -/
lemma histKeys_mark (c : ProcessedCache) (u p n : String) (a : Bool)
    (sr : ScreeningResult) (pd : ProfileData) (now : String) (k1 : String) :
    k1 ∈ histKeys (mark_as_processed c u p n a sr pd now) ↔
      k1 ∈ histKeys c ∨ k1 = profileKey u p :=
  histKeys_dictSet c (profileKey u p) _ k1

/-- The approved-results loop only adds the keys of the verdicts it
marks. -/
lemma histKeys_process_approved (pending : List ProfileData) (today now : String) :
    ∀ (rs : List ScreeningResult) (cache : ProcessedCache) (csv : List CsvRow) (k1 : String),
      k1 ∈ histKeys (process_approved pending today now rs (cache, csv)).1 →
      k1 ∈ histKeys cache ∨ k1 ∈ rs.map (fun r => profileKey r.username r.platform)
  | [], cache, csv, k1, h => Or.inl h
  | r :: rs, cache, csv, k1, h => by
    have hstep : process_approved pending today now (r :: rs) (cache, csv)
        = process_approved pending today now rs
            (mark_as_processed cache r.username r.platform (lookupName pending r) true r
              (lookupProfile pending r) now,
             append_to_approved_csv csv today) := rfl
    rw [hstep] at h
    rcases histKeys_process_approved pending today now rs _ _ k1 h with h1 | h1
    · rcases (histKeys_mark _ _ _ _ _ _ _ _ _).1 h1 with h2 | h2
      · exact Or.inl h2
      · right
        simp only [List.map_cons, List.mem_cons]
        exact Or.inl h2
    · right
      simp only [List.map_cons, List.mem_cons]
      exact Or.inr h1

/-- The rejected-results loop only adds the keys of the verdicts it
marks. -/
lemma histKeys_process_rejected (pending : List ProfileData) (now : String) :
    ∀ (rs : List ScreeningResult) (cache : ProcessedCache) (k1 : String),
      k1 ∈ histKeys (process_rejected pending now rs cache) →
      k1 ∈ histKeys cache ∨ k1 ∈ rs.map (fun r => profileKey r.username r.platform)
  | [], cache, k1, h => Or.inl h
  | r :: rs, cache, k1, h => by
    have hstep : process_rejected pending now (r :: rs) cache
        = process_rejected pending now rs
            (mark_as_processed cache r.username r.platform (lookupName pending r) false r
              (lookupProfile pending r) now) := rfl
    rw [hstep] at h
    rcases histKeys_process_rejected pending now rs _ k1 h with h1 | h1
    · rcases (histKeys_mark _ _ _ _ _ _ _ _ _).1 h1 with h2 | h2
      · exact Or.inl h2
      · right
        simp only [List.map_cons, List.mem_cons]
        exact Or.inl h2
    · right
      simp only [List.map_cons, List.mem_cons]
      exact Or.inr h1

/-- A key surviving `remove_from_pending` was pending before and is not
among the removed keys. -/
lemma pendingKeys_remove_from_pending (pend : List ProfileData)
    (ups : List (String × String)) (k : String)
    (h : k ∈ pendingKeys (remove_from_pending pend ups)) :
    k ∈ pendingKeys pend ∧ k ∉ ups.map (fun up => profileKey up.1 up.2) := by
  simp only [pendingKeys] at h
  obtain ⟨p, hp, rfl⟩ := List.mem_map.1 h
  simp only [remove_from_pending] at hp
  obtain ⟨hp1, hp2⟩ := List.mem_filter.1 hp
  exact ⟨List.mem_map_of_mem _ hp1, of_decide_eq_true hp2⟩

/-- Anything in the pending store after `save_pending_profiles` either
was already pending or is a new profile whose key is absent from the
processed history. -/
lemma save_pending_aux_mem (cache : ProcessedCache) :
    ∀ (ps existing : List ProfileData) (ks : List String) (p : ProfileData),
      p ∈ save_pending_aux cache ps existing ks →
      p ∈ existing ∨ (p ∈ ps ∧ is_processed cache p.username p.platform = false)
  | [], existing, ks, p, h => Or.inl h
  | q :: ps, existing, ks, p, h => by
    by_cases hc : (decide (profileKey q.username q.platform ∉ ks)
        && !(is_processed cache q.username q.platform)) = true
    · have hstep : save_pending_aux cache (q :: ps) existing ks
          = save_pending_aux cache ps (existing ++ [q])
              (ks ++ [profileKey q.username q.platform]) := by
        simp only [save_pending_aux]
        rw [if_pos hc]
      rw [hstep] at h
      rcases save_pending_aux_mem cache ps _ _ p h with h1 | h1
      · rcases List.mem_append.1 h1 with h2 | h2
        · exact Or.inl h2
        · have hq : p = q := by simpa using h2
          subst hq
          right
          refine ⟨List.mem_cons_self _ _, ?_⟩
          rw [Bool.and_eq_true] at hc
          simpa using hc.2
      · exact Or.inr ⟨List.mem_cons_of_mem _ h1.1, h1.2⟩
    · have hstep : save_pending_aux cache (q :: ps) existing ks
          = save_pending_aux cache ps existing ks := by
        simp only [save_pending_aux]
        rw [if_neg hc]
      rw [hstep] at h
      rcases save_pending_aux_mem cache ps _ _ p h with h1 | h1
      · exact Or.inl h1
      · exact Or.inr ⟨List.mem_cons_of_mem _ h1.1, h1.2⟩

/-- Claim C3: starting from a state where the pending store and the
processed history are key-disjoint (as every pipeline-produced state
is), a complete `run_screening` run leaves them key-disjoint — every
screened profile is marked processed and removed from pending — and
`save_pending_profiles` never queues a key that is in the processed
history. -/
theorem run_screening_disjoint (llm : ProfileData → LLMOutcome) (target : Nat)
    (today now : String) (st : PipeState)
    (h : ∀ k, k ∈ pendingKeys st.pending → k ∉ histKeys st.cache) :
    (∀ k, k ∈ pendingKeys (run_screening llm target today now st).2.pending →
        k ∉ histKeys (run_screening llm target today now st).2.cache) ∧
    (∀ (profiles : List ProfileData) (k : String),
        k ∈ pendingKeys (save_pending_profiles st.cache st.pending profiles) →
        k ∉ histKeys st.cache) := by
  constructor
  · intro k hk
    simp only [run_screening] at hk ⊢
    split_ifs at hk ⊢ with h0 hp
    · exact h k hk
    · exact h k hk
    · simp only at hk ⊢
      obtain ⟨hk1, hk2⟩ := pendingKeys_remove_from_pending _ _ _ hk
      intro hmem
      rcases histKeys_process_rejected _ _ _ _ _ hmem with h1 | h1
      · rcases histKeys_process_approved _ _ _ _ _ _ _ h1 with h2 | h2
        · exact h k hk1 h2
        · apply hk2
          rw [List.map_map]
          simp only [Function.comp_def, List.map_append, List.mem_append]
          exact Or.inl h2
      · apply hk2
        rw [List.map_map]
        simp only [Function.comp_def, List.map_append, List.mem_append]
        exact Or.inr h1
  · intro profiles k hk
    simp only [pendingKeys, List.mem_map] at hk
    obtain ⟨p, hp, rfl⟩ := hk
    rcases save_pending_aux_mem st.cache profiles st.pending _ p hp with h1 | h1
    · exact h _ (List.mem_map_of_mem _ h1)
    · intro hmem
      have h2 := h1.2
      rw [is_processed, decide_eq_false_iff_not] at h2
      exact h2 hmem

/-- Witness for claim C3 at a concrete run: target 1, two pending
profiles, an all-approving oracle — `bia` stays pending after the run
and her key is indeed absent from the processed history. -/
theorem run_screening_disjoint_witness :
    "instagram:bia" ∈ pendingKeys
        (run_screening llmAllYes 1 "2026-10-12" "n1" dayStartState).2.pending ∧
    "instagram:bia" ∉ histKeys
        (run_screening llmAllYes 1 "2026-10-12" "n1" dayStartState).2.cache := by
  refine ⟨by decide, ?_⟩
  exact (run_screening_disjoint llmAllYes 1 "2026-10-12" "n1" dayStartState (by decide)).1
    "instagram:bia" (by decide)

end Voy
